import Mathlib

/-!
Verification of the yap-to-text recording/transcription pipeline
(src-tauri/src: audio.rs, whisper.rs, modes.rs, ollama.rs, lib.rs).

Modelling conventions:
* Rust `f32`/`f64` sample arithmetic is embedded as exact arithmetic over `ℚ`.
* Rust `&str`/`String` is embedded as Lean `String`; the Rust string
  primitives used by the code (`trim`, `to_lowercase`, `trim_matches('"')`,
  byte length `len()`, substring `contains`) are re-implemented structurally
  over `String.data` so that they evaluate by kernel reduction.
* Fallible Rust functions returning `Result<T, String>` become
  `Except String T`; shared mutable session state becomes explicit state
  passing; the external collaborators (cpal device layer, Whisper engine,
  the Ollama HTTP service, the hound byte-level WAV parser) are oracle
  parameters, while every decision the repository code itself makes is
  translated from the source.
-/

/-! ## Rust string primitives, modelled structurally -/

/-- Model of Rust `str::trim`: drop Unicode whitespace from both ends. -/
def rustTrim (s : String) : String :=
  ⟨((s.data.dropWhile Char.isWhitespace).reverse.dropWhile Char.isWhitespace).reverse⟩

/-- Model of Rust `str::to_lowercase` (ASCII-faithful). -/
def rustToLower (s : String) : String :=
  ⟨s.data.map Char.toLower⟩

/-- Model of Rust `str::len`: the UTF-8 byte length of the string. -/
def rustLen (s : String) : Nat :=
  s.utf8ByteSize

/-- Model of Rust `str::trim_matches(c)`: repeatedly strip the character
`c` from both ends of the string. -/
def rustTrimMatches (c : Char) (s : String) : String :=
  ⟨((s.data.dropWhile (· == c)).reverse.dropWhile (· == c)).reverse⟩

/-- Helper for `rustContains`: does `pat` occur as a contiguous sublist? -/
def listHasInfix (pat : List Char) : List Char → Bool
  | [] => pat.isPrefixOf []
  | c :: rest => pat.isPrefixOf (c :: rest) || listHasInfix pat rest

/-- Model of Rust `str::contains(pat)`: substring containment. -/
def rustContains (s pat : String) : Bool :=
  listHasInfix pat.data s.data

/-! ## TranscriptionMode (modes.rs) -/

/-- Closed mode enumeration of `modes.rs`. -/
inductive TranscriptionMode where
  | default
  | email
  | bullets
  | summary
  | slack
  | meetingNotes
  | codeComment
  deriving DecidableEq, Repr

namespace TranscriptionMode

/-- Translation of `TranscriptionMode::from_str` (modes.rs:16-26): lowercase
the input, match the six non-default identifiers, anything else is Default. -/
def from_str (s : String) : TranscriptionMode :=
  let l := rustToLower s
  if l = "email" then .email
  else if l = "bullets" then .bullets
  else if l = "summary" then .summary
  else if l = "slack" then .slack
  else if l = "meeting_notes" then .meetingNotes
  else if l = "code_comment" then .codeComment
  else .default

/-- Translation of `TranscriptionMode::as_str` (modes.rs:28-38). -/
def as_str : TranscriptionMode → String
  | .default => "default"
  | .email => "email"
  | .bullets => "bullets"
  | .summary => "summary"
  | .slack => "slack"
  | .meetingNotes => "meeting_notes"
  | .codeComment => "code_comment"

/-- Translation of `TranscriptionMode::get_system_prompt` (modes.rs:64-99),
with the `format!` interpolation of the language name expanded. -/
def get_system_prompt (m : TranscriptionMode) (languageName : String) : String :=
  match m with
  | .default =>
      "You are a transcript cleaner that NEVER translates. You clean up speech transcripts by removing filler words and fixing grammar while keeping the EXACT SAME LANGUAGE as the input. If input is " ++ languageName ++ ", output " ++ languageName ++ ". NEVER change the language. Output ONLY the cleaned text."
  | .email =>
      "You are a professional email formatter that NEVER translates. Format this transcript as a professional email with an appropriate greeting, well-structured body paragraphs, and a professional closing. Keep the EXACT SAME LANGUAGE as the input (" ++ languageName ++ "). NEVER change the language. Output ONLY the formatted email, nothing else."
  | .bullets =>
      "You are a content organizer that NEVER translates. Convert this transcript into clear, organized bullet points. Extract key points and use concise language. Keep the EXACT SAME LANGUAGE as the input (" ++ languageName ++ "). NEVER change the language. Output ONLY the bullet list using • or - markers, nothing else."
  | .summary =>
      "You are a summarizer that NEVER translates. Condense this transcript into a brief summary capturing the main points. Be concise but comprehensive. Keep the EXACT SAME LANGUAGE as the input (" ++ languageName ++ "). NEVER change the language. Output ONLY the summary, nothing else."
  | .slack =>
      "You are a chat message formatter that NEVER translates. Convert this transcript into a short, casual message suitable for Slack or chat. Keep it friendly and concise. Keep the EXACT SAME LANGUAGE as the input (" ++ languageName ++ "). NEVER change the language. Output ONLY the message, nothing else."
  | .meetingNotes =>
      "You are a meeting notes formatter that NEVER translates. Structure this transcript as meeting notes with:\n- Key Discussion Points\n- Decisions Made\n- Action Items (if any)\nKeep the EXACT SAME LANGUAGE as the input (" ++ languageName ++ "). NEVER change the language. Output ONLY the formatted notes, nothing else."
  | .codeComment =>
      "You are a code documentation formatter that NEVER translates. Format this transcript as a code documentation comment. Use appropriate format (JSDoc, docstring, etc. based on content). Be technical and precise. Keep the EXACT SAME LANGUAGE as the input (" ++ languageName ++ "). NEVER change the language. Output ONLY the formatted comment, nothing else."

end TranscriptionMode

/-- Mode catalog of stable string identifiers (spec section 6 / modes.rs). -/
def modeCatalog : List String :=
  ["default", "email", "bullets", "summary", "slack", "meeting_notes", "code_comment"]

/-! ## Waveform codec and resampler (audio.rs, whisper.rs)

Samples are `ℚ` (exact model of `f32`/`f64` arithmetic).  The byte-level
RIFF serialisation is performed by the external `hound` library, so the
container is modelled at the level hound exposes to this repository: a
spec header plus the raw sample payload. -/

/-- Truncation toward zero, the semantics of a Rust float-to-integer
`as` cast on an in-range value. -/
def truncQ (q : ℚ) : ℤ :=
  if 0 ≤ q then ⌊q⌋ else ⌈q⌉

/-- Model of Rust `f32::clamp(lo, hi)`. -/
def clampQ (lo hi q : ℚ) : ℚ :=
  min (max q lo) hi

/-- WAV header fields used by the repository (hound `WavSpec`); the sample
format is carried by the payload constructor of `WavData`. -/
structure WavSpec where
  channels : Nat
  sampleRate : Nat
  bitsPerSample : Nat
  deriving DecidableEq, Repr

/-- Raw sample payload of a WAV container: integer samples (read by hound
as `i32`) or floating-point samples. -/
inductive WavData where
  | intData (vals : List ℤ)
  | floatData (vals : List ℚ)
  deriving DecidableEq, Repr

/-- A parsed WAV container: header plus payload. -/
structure WavFile where
  spec : WavSpec
  data : WavData
  deriving DecidableEq, Repr

/-- Header written by `samples_to_wav` (audio.rs:198-203): mono, 16000 Hz,
16-bit signed integer samples. -/
def wavSpec16k : WavSpec :=
  { channels := 1, sampleRate := 16000, bitsPerSample := 16 }

/-- Translation of the per-sample conversion in `samples_to_wav`
(audio.rs:212): `(sample * 32767.0).clamp(-32768.0, 32767.0) as i16`. -/
def sampleToI16 (sample : ℚ) : ℤ :=
  truncQ (clampQ (-32768) 32767 (sample * 32767))

/-- Write loop of `samples_to_wav` (audio.rs:210-216): successive
`writer.write_sample(sample_i16)` calls, as a fold over the input. -/
def writeSamples (written : List ℤ) (samples : List ℚ) : List ℤ :=
  samples.foldl (fun acc sample => acc ++ [sampleToI16 sample]) written

/-- Translation of `samples_to_wav` (audio.rs:197-224): write every sample
through the f32→i16 conversion into a mono/16 kHz/16-bit container.  The
in-memory cursor writes of hound cannot fail, so the `Result` shape of the
source is kept with the error branches unreachable. -/
def samples_to_wav (samples : List ℚ) : Except String WavFile :=
  .ok { spec := wavSpec16k, data := .intData (writeSamples [] samples) }

/-- Translation of `wav_to_samples` (whisper.rs:102-125) on a parsed
container: float samples pass through, integer samples are divided by
`1 << (bits_per_sample - 1)`. -/
def wavFileToSamples (f : WavFile) : List ℚ :=
  match f.data with
  | .floatData vals => vals
  | .intData vals =>
      let maxVal : ℚ := ((2 : ℕ) ^ (f.spec.bitsPerSample - 1) : ℕ)
      vals.map (fun (s : ℤ) => (s : ℚ) / maxVal)

/-- Translation of `wav_to_samples` (whisper.rs:102-125) including the
hound parse step, which is external: its outcome is the `parsed` argument,
and a parse failure is surfaced as `Failed to read WAV: ...` exactly as in
the source. -/
def wav_to_samples (parsed : Except String WavFile) : Except String (List ℚ) :=
  match parsed with
  | .error e => .error ("Failed to read WAV: " ++ e)
  | .ok f => .ok (wavFileToSamples f)

/-- Translation of `resample` (audio.rs:178-195): linear interpolation at
ratio `to_rate / from_rate`, output length `(len * ratio) as usize`, ceil
index clamped to `len - 1`. -/
def resample (samples : List ℚ) (fromRate toRate : Nat) : List ℚ :=
  let r : ℚ := (toRate : ℚ) / (fromRate : ℚ)
  let newLen : Nat := (⌊(samples.length : ℚ) * r⌋).toNat
  (List.range newLen).map (fun (i : Nat) =>
    let srcIdx : ℚ := (i : ℚ) / r
    let srcIdxFloor : Nat := (⌊srcIdx⌋).toNat
    let srcIdxCeil : Nat := min (srcIdxFloor + 1) (samples.length - 1)
    let frac : ℚ := srcIdx - (srcIdxFloor : ℚ)
    samples.getD srcIdxFloor 0 * (1 - frac) + samples.getD srcIdxCeil 0 * frac)

/-! ## Recording session (audio.rs)

The cpal device layer is an oracle (`Host`); the capture thread is out of
scope of the claims, so `start_recording` models everything the controller
does up to and including spawning it. -/

/-- Negotiated input configuration (cpal `SupportedStreamConfigRange`
followed by `with_max_sample_rate()`). -/
structure SupportedConfig where
  channels : Nat
  maxSampleRate : Nat
  deriving DecidableEq, Repr

/-- Oracle view of one cpal input device: `name()` and
`supported_input_configs()` may each fail. -/
structure InputDevice where
  name : Except String String
  configs : Except String (List SupportedConfig)

/-- Oracle view of the cpal host: device enumeration may fail, and there
may be no default input device. -/
structure Host where
  inputDevices : Except String (List InputDevice)
  defaultInputDevice : Option InputDevice

/-- Translation of `RecordingState` (audio.rs:15-20): sample buffer,
recording flag, sample rate, selected device id. -/
structure RecordingState where
  samples : List ℚ
  isRecording : Bool
  sampleRate : Nat
  selectedDeviceId : Option String
  deriving Repr

/-- Translation of `RecordingState::new` (audio.rs:23-30). -/
def RecordingState.new : RecordingState :=
  { samples := [], isRecording := false, sampleRate := 16000, selectedDeviceId := none }

/-- Device resolution step of `start_recording` (audio.rs:54-70): by exact
name match when a device is selected, else the host default. -/
def resolveDevice (host : Host) (selectedId : Option String) : Except String InputDevice :=
  match selectedId with
  | some deviceId =>
      match host.inputDevices with
      | .error e => .error ("Failed to enumerate input devices: " ++ e)
      | .ok devs =>
          match devs.find? (fun d =>
              match d.name with
              | .ok n => n = deviceId
              | .error _ => false) with
          | some d => .ok d
          | none => .error ("Selected device '" ++ deviceId ++ "' not found")
  | none =>
      match host.defaultInputDevice with
      | some d => .ok d
      | none => .error "No input device available"

/-- Config negotiation step of `start_recording` (audio.rs:72-83): first
config with one channel, else the first offered config, else error. -/
def resolveConfig (device : InputDevice) : Except String SupportedConfig :=
  match device.configs with
  | .error e => .error ("Error getting supported configs: " ++ e)
  | .ok cfgs =>
      match cfgs.find? (fun c => c.channels = 1) with
      | some c => .ok c
      | none =>
          match cfgs.head? with
          | some c => .ok c
          | none => .error "No supported input config"

/-- Translation of `start_recording` (audio.rs:41-139): reject when already
recording, clear the buffer, resolve device and config, record the
negotiated max sample rate, raise the recording flag, spawn the capture
thread (out of scope).  Returns the result together with the state as left
by the call. -/
def start_recording (host : Host) (s : RecordingState) :
    Except String Unit × RecordingState :=
  if s.isRecording then
    (.error "Already recording", s)
  else
    let s1 := { s with samples := [] }
    match resolveDevice host s1.selectedDeviceId with
    | .error e => (.error e, s1)
    | .ok device =>
        match resolveConfig device with
        | .error e => (.error e, s1)
        | .ok cfg =>
            let s2 := { s1 with sampleRate := cfg.maxSampleRate }
            (.ok (), { s2 with isRecording := true })

/-- Translation of `stop_recording` (audio.rs:142-176): reject when idle,
clear the recording flag, snapshot the buffer (the bounded grace sleep is
timing, not state), reject an empty snapshot, resample to 16 kHz when
needed, and encode to WAV. -/
def stop_recording (s : RecordingState) :
    Except String WavFile × RecordingState :=
  if !s.isRecording then
    (.error "Not recording", s)
  else
    let s1 := { s with isRecording := false }
    let samples := s1.samples
    if samples.isEmpty then
      (.error "No audio recorded", s1)
    else
      let resampled := if s1.sampleRate ≠ 16000 then resample samples s1.sampleRate 16000 else samples
      match samples_to_wav resampled with
      | .ok w => (.ok w, s1)
      | .error e => (.error e, s1)

/-- Translation of `is_recording` (audio.rs:226-228). -/
def is_recording (s : RecordingState) : Bool :=
  s.isRecording

/-! ## Cleanup client (ollama.rs)

The HTTP transport is an oracle: `HttpOutcome` is what `reqwest` hands
back for the single POST the code performs, covering the distinctions the
code inspects (connect failure vs other send failure vs a response with a
status, body text and JSON-parse outcome). -/

/-- Deserialised `OllamaResponse` body (ollama.rs:18-22). -/
structure OllamaResponse where
  response : String
  done : Bool
  deriving DecidableEq, Repr

/-- Serialised `OllamaRequest` body (ollama.rs:9-16). -/
structure OllamaRequest where
  model : String
  prompt : String
  system : String
  stream : Bool
  context : Option (List ℤ)
  deriving DecidableEq, Repr

/-- Outcome of the `reqwest` send as the code observes it. -/
inductive HttpOutcome where
  | connectError
  | sendError (msg : String)
  | response (statusSuccess : Bool) (statusText : String) (bodyText : String)
      (parsed : Except String OllamaResponse)

/-- Translation of the `OllamaClient` configuration (ollama.rs:24-29). -/
structure OllamaClient where
  model : String
  enabled : Bool
  deriving Repr

/-- Translation of `OllamaClient::new` (ollama.rs:32-38) with
`DEFAULT_MODEL = "gemma2:2b"`. -/
def OllamaClient.new : OllamaClient :=
  { model := "gemma2:2b", enabled := true }

/-- Language-code table of `cleanup_text` (ollama.rs:86-100): fixed codes
map to English names, unknown codes pass through, absence maps to the
literal phrase. -/
def langName (language : Option String) : String :=
  match language with
  | none => "the same language"
  | some l =>
      if l = "fr" then "French"
      else if l = "es" then "Spanish"
      else if l = "de" then "German"
      else if l = "it" then "Italian"
      else if l = "pt" then "Portuguese"
      else if l = "nl" then "Dutch"
      else if l = "ru" then "Russian"
      else if l = "zh" then "Chinese"
      else if l = "ja" then "Japanese"
      else if l = "ko" then "Korean"
      else if l = "ar" then "Arabic"
      else if l = "en" then "English"
      else l

/-- User-prompt construction of `cleanup_text` (ollama.rs:104-133), with
the `format!` interpolation expanded per mode. -/
def userPrompt (m : TranscriptionMode) (lname text : String) : String :=
  match m with
  | .default =>
      "Clean this " ++ lname ++ " transcript (keep in " ++ lname ++ ", do NOT translate):\n\n" ++ text
  | .email =>
      "Format this " ++ lname ++ " transcript as a professional email (keep in " ++ lname ++ "):\n\n" ++ text
  | .bullets =>
      "Convert this " ++ lname ++ " transcript to bullet points (keep in " ++ lname ++ "):\n\n" ++ text
  | .summary =>
      "Summarize this " ++ lname ++ " transcript (keep in " ++ lname ++ "):\n\n" ++ text
  | .slack =>
      "Convert this " ++ lname ++ " transcript to a casual chat message (keep in " ++ lname ++ "):\n\n" ++ text
  | .meetingNotes =>
      "Format this " ++ lname ++ " transcript as meeting notes (keep in " ++ lname ++ "):\n\n" ++ text
  | .codeComment =>
      "Format this " ++ lname ++ " transcript as a code comment (keep in " ++ lname ++ "):\n\n" ++ text

/-- Post-processing of a successful Ollama response body
(ollama.rs:169-174): `response.trim().trim_matches('"').trim()`. -/
def postProcessResponse (r : String) : String :=
  rustTrim (rustTrimMatches '"' (rustTrim r))

/-- Translation of `OllamaClient::cleanup_text` (ollama.rs:74-177).  The
second component records whether the HTTP request was sent (`true` exactly
when control reaches the `send()` call). -/
def cleanup_text (c : OllamaClient) (text : String) (language : Option String)
    (mode : String) (service : OllamaRequest → HttpOutcome) :
    Except String String × Bool :=
  if !c.enabled then
    (.ok text, false)
  else if (rustTrim text).data.isEmpty then
    (.ok text, false)
  else
    let tm := TranscriptionMode.from_str mode
    let lname := langName language
    let req : OllamaRequest :=
      { model := c.model
        prompt := userPrompt tm lname text
        system := tm.get_system_prompt lname
        stream := false
        context := some [] }
    match service req with
    | .connectError =>
        (.error "Ollama is not running. Start Ollama or disable AI cleanup.", true)
    | .sendError e =>
        (.error ("Failed to send request to Ollama: " ++ e), true)
    | .response statusSuccess statusText bodyText parsed =>
        if !statusSuccess then
          (.error ("Ollama returned error " ++ statusText ++ ": " ++ bodyText), true)
        else
          match parsed with
          | .error e => (.error ("Failed to parse Ollama response: " ++ e), true)
          | .ok r => (.ok (postProcessResponse r.response), true)

/-! ## Workflow (lib.rs `transcribe_and_cleanup`)

The Whisper engine is an oracle producing a `TranscriptionResult`; the
Ollama call is an oracle of the shape actually invoked at lib.rs:412,
namely `cleanup_text(raw_text, Some(language))` — two arguments, no mode.
The second component of the result records that invocation (text and
language) when it happens. -/

/-- Translation of `TranscriptionResult` (whisper.rs:10-13). -/
structure TranscriptionResult where
  text : String
  language : String
  deriving DecidableEq, Repr

/-- Translation of `TranscribeResult` (lib.rs:434-439). -/
structure TranscribeResult where
  raw_text : String
  cleaned_text : String
  language : String
  deriving DecidableEq, Repr

/-- Translation of `transcribe_and_cleanup` (lib.rs:370-432).  `wavLen` is
`wav_data.len()`; `parsed` is the hound parse of those bytes;
`whisperLoaded` and `transcribe` model the engine; `ollamaEnabled` and
`cleanup` model the client snapshot and the awaited call at lib.rs:412.
Alongside the result, the cleanup invocation (if any) is returned as the
pair of arguments it was given. -/
def transcribe_and_cleanup (wavLen : Nat) (parsed : Except String WavFile)
    (whisperLoaded : Bool) (transcribe : List ℚ → Except String TranscriptionResult)
    (ollamaEnabled : Bool) (cleanup : String → Option String → Except String String) :
    Except String TranscribeResult × Option (String × Option String) :=
  if wavLen < 1000 then
    (.error "No audio captured. Check microphone permissions in System Settings > Privacy & Security > Microphone.", none)
  else if !whisperLoaded then
    (.error "Whisper model not loaded", none)
  else
    match wav_to_samples parsed with
    | .error e => (.error e, none)
    | .ok samples =>
        let maxAmplitude : ℚ := samples.foldl (fun m s => max m |s|) 0
        if maxAmplitude < 1/100 then
          (.error "Audio too quiet - check that your microphone is working and you have granted permission.", none)
        else
          match transcribe samples with
          | .error e => (.error e, none)
          | .ok transcription =>
              let raw_text := rustTrim transcription.text
              if raw_text.data.isEmpty ∨ rustLen raw_text < 2 then
                (.error "Could not transcribe audio. Try speaking louder or longer.", none)
              else
                let language := transcription.language
                if ollamaEnabled ∧ rustLen raw_text > 3 then
                  let cleaned_text :=
                    match cleanup raw_text (some language) with
                    | .ok cleaned =>
                        if rustContains cleaned "provide" ∧ rustContains cleaned "transcript" then
                          raw_text
                        else
                          cleaned
                    | .error _ => raw_text
                  (.ok { raw_text := raw_text, cleaned_text := cleaned_text,
                         language := language },
                   some (raw_text, some language))
                else
                  (.ok { raw_text := raw_text, cleaned_text := raw_text,
                         language := language }, none)

/-! ## Claim C9: mode identifier round trip -/

/-- C9: every mode's string identifier round-trips through `from_str`, and
any string whose lowercasing is outside the mode catalog falls back to the
Default mode instead of erroring. -/
theorem mode_id_roundtrip_default :
    (∀ m : TranscriptionMode, TranscriptionMode.from_str m.as_str = m) ∧
    (∀ s : String, rustToLower s ∉ modeCatalog →
      TranscriptionMode.from_str s = TranscriptionMode.default) := by
  constructor
  · intro m
    cases m <;> decide
  · intro s h
    simp only [modeCatalog, List.mem_cons, List.not_mem_nil, or_false, not_or] at h
    obtain ⟨-, h1, h2, h3, h4, h5, h6⟩ := h
    simp only [TranscriptionMode.from_str]
    rw [if_neg h1, if_neg h2, if_neg h3, if_neg h4, if_neg h5, if_neg h6]

/-- C9 witness: a concrete round trip and a concrete out-of-catalog
fallback. -/
theorem mode_id_roundtrip_default_witness :
    TranscriptionMode.from_str (TranscriptionMode.as_str TranscriptionMode.email)
        = TranscriptionMode.email ∧
    TranscriptionMode.from_str "Shakespeare" = TranscriptionMode.default :=
  ⟨mode_id_roundtrip_default.1 TranscriptionMode.email,
   mode_id_roundtrip_default.2 "Shakespeare" (by decide)⟩

/-! ## Claim C3: resample output length -/

/-- C3: for positive rates, `resample` returns exactly
`floor(len * toRate / fromRate)` output samples. -/
theorem resample_length_floor (samples : List ℚ) (fromRate toRate : Nat)
    (hf : 0 < fromRate) (ht : 0 < toRate) :
    ((resample samples fromRate toRate).length : ℤ)
      = ⌊(samples.length : ℚ) * (toRate : ℚ) / (fromRate : ℚ)⌋ := by
  have h1 : (resample samples fromRate toRate).length
      = (⌊(samples.length : ℚ) * ((toRate : ℚ) / (fromRate : ℚ))⌋).toNat := by
    unfold resample
    rw [List.length_map, List.length_range]
  rw [h1, Int.toNat_of_nonneg (Int.floor_nonneg.mpr (by positivity)), mul_div_assoc]

/-- C3 witness: a three-sample input downsampled 3:1 has
`floor(3 * 1 / 3) = 1` output sample. -/
theorem resample_length_floor_witness :
    ((resample [1, 2, 3] 3 1).length : ℤ)
      = ⌊(([1, 2, 3] : List ℚ).length : ℚ) * ((1 : Nat) : ℚ) / ((3 : Nat) : ℚ)⌋ :=
  resample_length_floor [1, 2, 3] 3 1 (by decide) (by decide)

/-! ## Claim C7: cleanup fast path -/

/-- C7: with the client disabled, or with empty/whitespace-only text,
`cleanup_text` returns the input text unchanged and sends no request. -/
theorem cleanup_disabled_or_blank_fast_path (c : OllamaClient) (text : String)
    (language : Option String) (mode : String)
    (service : OllamaRequest → HttpOutcome)
    (h : c.enabled = false ∨ (rustTrim text).data = []) :
    cleanup_text c text language mode service = (.ok text, false) := by
  rcases h with h | h
  · simp [cleanup_text, h]
  · by_cases he : c.enabled
    · simp [cleanup_text, he, h]
    · simp [cleanup_text, he]

/-- C7 witness: a disabled client returns whitespace-padded input verbatim
without contacting the service. -/
theorem cleanup_disabled_or_blank_fast_path_witness :
    cleanup_text { model := "gemma2:2b", enabled := false } "  hi  " (some "en")
        "email" (fun _ => HttpOutcome.connectError) = (.ok "  hi  ", false) :=
  cleanup_disabled_or_blank_fast_path _ _ _ _ _ (Or.inl rfl)

/-! ## Claim C10: stop on empty buffer clears the flag before failing -/

/-- C10: stopping a recording session whose buffer snapshot is empty
returns the EmptyRecording error, yet the recording flag has already been
cleared, so the session reads as idle afterwards. -/
theorem stop_empty_clears_flag (s : RecordingState)
    (hrec : s.isRecording = true) (hempty : s.samples = []) :
    (stop_recording s).1 = .error "No audio recorded" ∧
    is_recording (stop_recording s).2 = false := by
  simp [stop_recording, is_recording, hrec, hempty]

/-- C10 witness: a concrete recording session with an empty buffer. -/
theorem stop_empty_clears_flag_witness :
    (stop_recording { samples := [], isRecording := true, sampleRate := 44100, selectedDeviceId := none }).1 = .error "No audio recorded" ∧
    is_recording (stop_recording { samples := [], isRecording := true, sampleRate := 44100, selectedDeviceId := none }).2 = false :=
  stop_empty_clears_flag _ rfl rfl


/-! ## Claim C8: state-validation errors of start and stop -/

/-- Device-resolution failures never produce the AlreadyRecording message
(their error strings have different lengths or heads). -/
theorem resolveDevice_ne_already (host : Host) (sel : Option String) :
    resolveDevice host sel ≠ .error "Already recording" := by
  intro h
  unfold resolveDevice at h
  split at h
  · split at h
    · injection h with h
      have hl := congrArg String.length h
      rw [String.length_append] at hl
      have h35 : ("Failed to enumerate input devices: " : String).length = 35 := rfl
      have h17 : ("Already recording" : String).length = 17 := rfl
      omega
    · split at h
      · cases h
      · injection h with h
        have hl := congrArg String.length h
        rw [String.length_append, String.length_append] at hl
        have ha : ("Selected device '" : String).length = 17 := rfl
        have hb : ("' not found" : String).length = 11 := rfl
        have h17 : ("Already recording" : String).length = 17 := rfl
        omega
  · split at h
    · cases h
    · injection h with h
      exact absurd (congrArg String.length h) (by decide)

/-- Config-negotiation failures never produce the AlreadyRecording
message. -/
theorem resolveConfig_ne_already (device : InputDevice) :
    resolveConfig device ≠ .error "Already recording" := by
  intro h
  unfold resolveConfig at h
  split at h
  · injection h with h
    have hl := congrArg String.length h
    rw [String.length_append] at hl
    have h33 : ("Error getting supported configs: " : String).length = 33 := rfl
    have h17 : ("Already recording" : String).length = 17 := rfl
    omega
  · split at h
    · cases h
    · split at h
      · cases h
      · injection h with h
        exact absurd (congrArg String.length h) (by decide)

/-- C8: `start_recording` fails with AlreadyRecording exactly when the
session is recording, `stop_recording` fails with NotRecording exactly
when it is idle, and in both failure cases the session state is returned
unchanged. -/
theorem recording_state_validation (host : Host) (s : RecordingState) :
    ((start_recording host s).1 = .error "Already recording" ↔ s.isRecording = true) ∧
    (s.isRecording = true → (start_recording host s).2 = s) ∧
    ((stop_recording s).1 = .error "Not recording" ↔ s.isRecording = false) ∧
    (s.isRecording = false → (stop_recording s).2 = s) := by
  rcases hrec : s.isRecording
  · have hns : (start_recording host s).1 ≠ .error "Already recording" := by
      intro h
      unfold start_recording at h
      rw [if_neg (by simp [hrec])] at h
      simp only [] at h
      split at h
      · rename_i e heq
        simp only at h
        injection h with h
        rw [h] at heq
        exact resolveDevice_ne_already host _ heq
      · split at h
        · rename_i e heq
          simp only at h
          injection h with h
          rw [h] at heq
          exact resolveConfig_ne_already _ heq
        · simp at h
    refine ⟨⟨fun h => (hns h).elim, fun h => Bool.noConfusion h⟩,
      fun h => Bool.noConfusion h, ?_, fun _ => by simp [stop_recording, hrec]⟩
    simp [stop_recording, hrec]
  · refine ⟨⟨fun _ => rfl, fun _ => ?_⟩, fun _ => ?_,
      ⟨fun h => ?_, fun h => Bool.noConfusion h⟩, fun h => Bool.noConfusion h⟩
    · simp [start_recording, hrec]
    · simp [start_recording, hrec]
    · unfold stop_recording at h
      rw [if_neg (by simp [hrec])] at h
      simp only [] at h
      split at h
      · simp only at h
        injection h with h
        exact absurd (congrArg String.length h) (by decide)
      · split at h
        · simp only at h
          injection h
        · rename_i heq
          simp [samples_to_wav] at heq

/-- C8 witness: a concrete recording session and host instantiating the
validation equivalences. -/
theorem recording_state_validation_witness :
    ((start_recording { inputDevices := .ok [], defaultInputDevice := none } { samples := [], isRecording := true, sampleRate := 16000, selectedDeviceId := none }).1 = .error "Already recording" ↔ ({ samples := [], isRecording := true, sampleRate := 16000, selectedDeviceId := none } : RecordingState).isRecording = true) ∧
    (({ samples := [], isRecording := true, sampleRate := 16000, selectedDeviceId := none } : RecordingState).isRecording = true → (start_recording { inputDevices := .ok [], defaultInputDevice := none } { samples := [], isRecording := true, sampleRate := 16000, selectedDeviceId := none }).2 = { samples := [], isRecording := true, sampleRate := 16000, selectedDeviceId := none }) ∧
    ((stop_recording { samples := [], isRecording := true, sampleRate := 16000, selectedDeviceId := none }).1 = .error "Not recording" ↔ ({ samples := [], isRecording := true, sampleRate := 16000, selectedDeviceId := none } : RecordingState).isRecording = false) ∧
    (({ samples := [], isRecording := true, sampleRate := 16000, selectedDeviceId := none } : RecordingState).isRecording = false → (stop_recording { samples := [], isRecording := true, sampleRate := 16000, selectedDeviceId := none }).2 = { samples := [], isRecording := true, sampleRate := 16000, selectedDeviceId := none }) :=
  recording_state_validation { inputDevices := .ok [], defaultInputDevice := none } { samples := [], isRecording := true, sampleRate := 16000, selectedDeviceId := none }

/-! ## Claim C1: encoder sample conversion -/

/-- Appending-fold characterisation of the WAV write loop. -/
theorem foldl_write_eq_map (g : ℚ → ℤ) (written : List ℤ) (samples : List ℚ) :
    samples.foldl (fun acc sample => acc ++ [g sample]) written
      = written ++ samples.map g := by
  induction samples generalizing written with
  | nil => simp
  | cons a l ih => simp [ih]

/-- Index access under a map, with an in-bounds index. -/
theorem getD_map_lt {α β : Type} (g : α → β) (l : List α) (i : Nat)
    (d : β) (d2 : α) (h : i < l.length) :
    (l.map g).getD i d = g (l.getD i d2) := by
  rw [List.getD_eq_getElem?_getD, List.getD_eq_getElem?_getD, List.getElem?_map,
    List.getElem?_eq_getElem h]
  simp

/-- C1 (amended): the encoder writes, for the sample at every in-bounds
index, the 16-bit integer obtained by clamping `s * 32767` into
`[-32768, 32767]` and then truncating toward zero (the Rust `as i16`
cast) — not by rounding to nearest. -/
theorem wav_encode_truncates (samples : List ℚ) (i : Nat)
    (h : i < samples.length) :
    ∃ f : WavFile, samples_to_wav samples = .ok f ∧ f.spec = wavSpec16k ∧
      f.data = .intData (writeSamples [] samples) ∧
      (writeSamples [] samples).getD i 0
        = truncQ (clampQ (-32768) 32767 (samples.getD i 0 * 32767)) := by
  refine ⟨_, rfl, rfl, rfl, ?_⟩
  unfold writeSamples
  rw [foldl_write_eq_map, List.nil_append, getD_map_lt sampleToI16 samples i 0 0 h]
  rfl

/-- C1 witness: concrete instantiation at the second sample of a
three-sample buffer. -/
theorem wav_encode_truncates_witness :
    (0 : Nat) < ([(1 : ℚ)/2, 1, -1] : List ℚ).length ∧
    (∃ f : WavFile, samples_to_wav [(1 : ℚ)/2, 1, -1] = .ok f ∧ f.spec = wavSpec16k ∧
      f.data = .intData (writeSamples [] [(1 : ℚ)/2, 1, -1]) ∧
      (writeSamples [] [(1 : ℚ)/2, 1, -1]).getD 0 0
        = truncQ (clampQ (-32768) 32767 (([(1 : ℚ)/2, 1, -1] : List ℚ).getD 0 0 * 32767))) :=
  ⟨by decide, wav_encode_truncates [(1 : ℚ)/2, 1, -1] 0 (by decide)⟩

/-- C1 counterexample: at the concrete sample `1/2` the encoder writes
16383 (truncation of 16383.5), while round-to-nearest of the clamped value
is 16384, so the claimed round(clamp(...)) conversion does not hold. -/
theorem wav_encode_round_cex :
    samples_to_wav [(1 : ℚ)/2]
        = .ok { spec := wavSpec16k, data := .intData [16383] } ∧
    round (clampQ (-32768) 32767 ((1 : ℚ)/2 * 32767)) = 16384 ∧
    (16383 : ℤ) ≠ 16384 := by
  have hclamp : clampQ (-32768) 32767 ((1 : ℚ)/2 * 32767) = 32767/2 := by
    unfold clampQ
    rw [max_eq_left (by norm_num), min_eq_left (by norm_num)]
    norm_num
  refine ⟨?_, ?_, by decide⟩
  · unfold samples_to_wav writeSamples
    simp only [List.foldl_cons, List.foldl_nil, List.nil_append]
    unfold sampleToI16
    rw [hclamp]
    unfold truncQ
    rw [if_pos (by norm_num)]
    norm_num
  · rw [hclamp, round_eq]
    norm_num

/-! ## Claim C2: encode-then-decode quantization error -/

/-- Truncation toward zero moves a rational by less than one. -/
theorem truncQ_sub_le (q : ℚ) : |q - (truncQ q : ℚ)| ≤ 1 := by
  unfold truncQ
  split_ifs with h
  · rw [abs_of_nonneg (sub_nonneg.mpr (Int.floor_le q))]
    have := Int.sub_one_lt_floor q
    linarith
  · rw [abs_of_nonpos (sub_nonpos.mpr (Int.le_ceil q))]
    have := Int.ceil_lt_add_one q
    linarith

/-- Per-sample round-trip error of the 16-bit codec: encoding multiplies
by 32767 and truncates, decoding divides by 32768, so the error reaches up
to (|s| + 1)/32768 ≤ 2/32768 — not 1/32768. -/
theorem encode_decode_sample_bound (s : ℚ) (hs : |s| ≤ 1) :
    |s - (sampleToI16 s : ℚ) / 32768| ≤ 2 / 32768 := by
  have hb := abs_le.mp hs
  have hclamp : clampQ (-32768) 32767 (s * 32767) = s * 32767 := by
    unfold clampQ
    rw [max_eq_left (by nlinarith), min_eq_left (by nlinarith)]
  unfold sampleToI16
  rw [hclamp]
  have ht := truncQ_sub_le (s * 32767)
  have hrw : s - (truncQ (s * 32767) : ℚ) / 32768
      = (32768 * s - (truncQ (s * 32767) : ℚ)) / 32768 := by
    ring
  rw [hrw, abs_div, abs_of_pos (by norm_num : (0:ℚ) < 32768),
    div_le_div_iff_of_pos_right (by norm_num : (0:ℚ) < 32768)]
  have hsplit : 32768 * s - (truncQ (s * 32767) : ℚ)
      = s + (s * 32767 - (truncQ (s * 32767) : ℚ)) := by
    ring
  rw [hsplit]
  calc |s + (s * 32767 - (truncQ (s * 32767) : ℚ))|
      ≤ |s| + |s * 32767 - (truncQ (s * 32767) : ℚ)| := abs_add _ _
    _ ≤ 1 + 1 := add_le_add hs ht
    _ = 2 := by norm_num

/-- C2 (amended): encoding a float sequence with values in [-1, 1] to the
16-bit PCM container and decoding it back recovers every sample within
absolute error 2/32768 (the bound 1/32768 claimed by the spec is exceeded,
e.g. at 2/3). -/
theorem encode_decode_bound (samples : List ℚ) (hb : ∀ s ∈ samples, |s| ≤ 1) :
    ∃ f : WavFile, samples_to_wav samples = .ok f ∧
      ∃ decoded : List ℚ, wav_to_samples (.ok f) = .ok decoded ∧
        decoded.length = samples.length ∧
        ∀ i, i < samples.length →
          |samples.getD i 0 - decoded.getD i 0| ≤ 2 / 32768 := by
  have hw : writeSamples [] samples = samples.map sampleToI16 := by
    unfold writeSamples
    rw [foldl_write_eq_map, List.nil_append]
  refine ⟨_, rfl, _, rfl, ?_, ?_⟩
  · unfold wavFileToSamples
    simp [hw, wavSpec16k]
  · intro i h
    unfold wavFileToSamples
    simp only [hw, wavSpec16k]
    have hmem : samples.getD i 0 ∈ samples := by
      rw [List.getD_eq_getElem?_getD, List.getElem?_eq_getElem h]
      exact List.getElem_mem h
    have hout := getD_map_lt (fun v : ℤ => (v : ℚ) / (((2 : ℕ) ^ (16 - 1) : ℕ) : ℚ))
      (samples.map sampleToI16) i 0 0 (by rw [List.length_map]; exact h)
    rw [hout, getD_map_lt sampleToI16 samples i 0 0 h]
    have hmax : (((2 : ℕ) ^ (16 - 1) : ℕ) : ℚ) = 32768 := by norm_num
    rw [hmax]
    exact encode_decode_sample_bound (samples.getD i 0) (hb _ hmem)

/-- C2 witness: the bound instantiated on the singleton buffer [1/2]. -/
theorem encode_decode_bound_witness :
    (∀ s ∈ ([(1 : ℚ)/2] : List ℚ), |s| ≤ 1) ∧
    (∃ f : WavFile, samples_to_wav [(1 : ℚ)/2] = .ok f ∧
      ∃ decoded : List ℚ, wav_to_samples (.ok f) = .ok decoded ∧
        decoded.length = ([(1 : ℚ)/2] : List ℚ).length ∧
        ∀ i, i < ([(1 : ℚ)/2] : List ℚ).length →
          |([(1 : ℚ)/2] : List ℚ).getD i 0 - decoded.getD i 0| ≤ 2 / 32768) :=
  have hb : ∀ s ∈ ([(1 : ℚ)/2] : List ℚ), |s| ≤ 1 := by
    intro s hs
    rw [List.mem_singleton] at hs
    rw [hs]
    rw [abs_of_pos (by norm_num)]
    norm_num
  ⟨hb, encode_decode_bound [(1 : ℚ)/2] hb⟩

/-- C2 counterexample: at the in-range sample 2/3 the encoder writes
21844 = trunc(65534/3); decoding yields 21844/32768 = 5461/8192, and the
round-trip error 2/3 - 5461/8192 = 1/24576 exceeds the claimed bound
1/32768. -/
theorem encode_decode_bound_cex :
    samples_to_wav [(2 : ℚ)/3]
        = .ok { spec := wavSpec16k, data := .intData [21844] } ∧
    wav_to_samples (.ok { spec := wavSpec16k, data := .intData [21844] })
        = .ok [(5461 : ℚ)/8192] ∧
    |(2 : ℚ)/3| ≤ 1 ∧
    ¬ |(2 : ℚ)/3 - 5461/8192| ≤ 1 / 32768 := by
  refine ⟨?_, ?_, ?_, ?_⟩
  · have hclamp : clampQ (-32768) 32767 ((2 : ℚ)/3 * 32767) = 65534/3 := by
      unfold clampQ
      rw [max_eq_left (by norm_num), min_eq_left (by norm_num)]
      norm_num
    unfold samples_to_wav writeSamples
    simp only [List.foldl_cons, List.foldl_nil, List.nil_append]
    unfold sampleToI16
    rw [hclamp]
    unfold truncQ
    rw [if_pos (by norm_num)]
    norm_num
  · unfold wav_to_samples wavFileToSamples
    simp only [wavSpec16k]
    norm_num
  · rw [abs_of_pos (by norm_num)]
    norm_num
  · have hv : (2 : ℚ)/3 - 5461/8192 = 1/24576 := by norm_num
    rw [hv, abs_of_pos (by norm_num)]
    norm_num

/-! ## Claim C6: post-processing of a successful cleanup response -/

/-- C6 (amended): on a successful service response, `cleanup_text` returns
the response text with surrounding whitespace trimmed and ALL enclosing
double-quote characters removed from both ends (then trimmed again) — the
`trim_matches` call strips every quote layer, not a single one. -/
theorem cleanup_strips_all_quote_layers (c : OllamaClient) (text : String)
    (language : Option String) (mode : String) (statusText bodyText : String)
    (r : OllamaResponse) (service : OllamaRequest → HttpOutcome)
    (hEnabled : c.enabled = true) (hText : (rustTrim text).data ≠ [])
    (hs : ∀ req, service req = .response true statusText bodyText (.ok r)) :
    (cleanup_text c text language mode service).1
      = .ok (rustTrim (rustTrimMatches '"' (rustTrim r.response))) := by
  unfold cleanup_text
  rw [hEnabled]
  simp only [Bool.not_true, Bool.false_eq_true, if_false]
  rw [if_neg (by simp [hText])]
  rw [hs]
  rfl

/-- C6 witness: enabled client, non-blank text, and a service returning
the doubly quoted body. -/
theorem cleanup_strips_all_quote_layers_witness :
    (cleanup_text { model := "gemma2:2b", enabled := true } "hi" none "default"
        (fun _ => .response true "200 OK" "" (.ok { response := "\"\"x\"\"", done := true }))).1
      = .ok (rustTrim (rustTrimMatches '"' (rustTrim "\"\"x\"\""))) :=
  cleanup_strips_all_quote_layers _ _ _ _ _ _ _ _ rfl (by decide) (fun _ => rfl)

/-- C6 counterexample: a trimmed response of the form quote-quote-x-quote-
quote yields the bare text with no quote layer left, not the singly quoted
form the claim demands. -/
theorem cleanup_one_quote_layer_cex :
    (cleanup_text { model := "gemma2:2b", enabled := true } "note" none "default"
        (fun _ => .response true "200 OK" "" (.ok { response := "\"\"x\"\"", done := true }))).1
      = .ok "x" ∧ ("x" : String) ≠ "\"x\"" := by
  constructor
  · rfl
  · decide

/-! ## Claim C4: cleanup fallback policy of the workflow -/

/-- Whether `transcribe_and_cleanup` succeeds does not depend on the
cleanup oracle at all: the cleanup stage can only influence the
`cleaned_text` payload of an already-successful result. -/
theorem transcribe_isOk_independent (wavLen : Nat) (parsed : Except String WavFile)
    (whisperLoaded : Bool)
    (transcribe : List ℚ → Except String TranscriptionResult)
    (ollamaEnabled : Bool)
    (c1 c2 : String → Option String → Except String String) :
    (transcribe_and_cleanup wavLen parsed whisperLoaded transcribe ollamaEnabled c1).1.isOk
      = (transcribe_and_cleanup wavLen parsed whisperLoaded transcribe ollamaEnabled c2).1.isOk := by
  unfold transcribe_and_cleanup
  split
  · rfl
  split
  · rfl
  split
  · rfl
  simp only []
  split
  · rfl
  split
  · rfl
  split
  · rfl
  split
  · rfl
  · rfl

/-- Shape of a successful workflow result: either the cleaned text simply
equals the raw text, or cleanup was enabled, returned successfully, did
not trip the refusal heuristic, and its result was kept. -/
theorem transcribe_ok_cleaned_shape (wavLen : Nat) (parsed : Except String WavFile)
    (whisperLoaded : Bool)
    (transcribe : List ℚ → Except String TranscriptionResult)
    (ollamaEnabled : Bool)
    (cleanup : String → Option String → Except String String)
    (tr : TranscribeResult) (inv : Option (String × Option String))
    (h : transcribe_and_cleanup wavLen parsed whisperLoaded transcribe
        ollamaEnabled cleanup = (.ok tr, inv)) :
    tr.cleaned_text = tr.raw_text ∨
      (ollamaEnabled = true ∧ ∃ cl, cleanup tr.raw_text (some tr.language) = .ok cl ∧
        tr.cleaned_text = cl ∧
        ¬(rustContains cl "provide" = true ∧ rustContains cl "transcript" = true)) := by
  unfold transcribe_and_cleanup at h
  simp only [] at h
  split at h
  · exact absurd (congrArg Prod.fst h) (by simp)
  split at h
  · exact absurd (congrArg Prod.fst h) (by simp)
  split at h
  · exact absurd (congrArg Prod.fst h) (by simp)
  split at h
  · exact absurd (congrArg Prod.fst h) (by simp)
  split at h
  · exact absurd (congrArg Prod.fst h) (by simp)
  split at h
  · exact absurd (congrArg Prod.fst h) (by simp)
  split at h
  · rename_i hcond
    split at h
    · rename_i cl0 heq
      split at h
      · left
        have h1 := congrArg Prod.fst h
        simp only [] at h1
        injection h1 with h1
        rw [← h1]
      · rename_i htok
        right
        have h1 := congrArg Prod.fst h
        simp only [] at h1
        injection h1 with h1
        rw [← h1]
        exact ⟨hcond.1, cl0, heq, rfl, htok⟩
    · left
      have h1 := congrArg Prod.fst h
      simp only [] at h1
      injection h1 with h1
      rw [← h1]
  · left
    have h1 := congrArg Prod.fst h
    simp only [] at h1
    injection h1 with h1
    rw [← h1]

/-- C4: whenever the workflow succeeds, `cleaned_text` equals `raw_text`
if cleanup is disabled, if the cleanup call errors, or if the cleanup
result contains both the "provide" and "transcript" tokens; and the
overall success of the workflow never depends on the cleanup oracle, so a
cleanup error cannot fail the workflow. -/
theorem cleanup_fallback_policy (wavLen : Nat) (parsed : Except String WavFile)
    (whisperLoaded : Bool)
    (transcribe : List ℚ → Except String TranscriptionResult)
    (ollamaEnabled : Bool)
    (cleanup : String → Option String → Except String String)
    (tr : TranscribeResult) (inv : Option (String × Option String))
    (h : transcribe_and_cleanup wavLen parsed whisperLoaded transcribe
        ollamaEnabled cleanup = (.ok tr, inv)) :
    (ollamaEnabled = false → tr.cleaned_text = tr.raw_text) ∧
    (∀ e, cleanup tr.raw_text (some tr.language) = .error e →
      tr.cleaned_text = tr.raw_text) ∧
    (∀ cl, cleanup tr.raw_text (some tr.language) = .ok cl →
      rustContains cl "provide" = true → rustContains cl "transcript" = true →
      tr.cleaned_text = tr.raw_text) ∧
    (∀ cleanup2, (transcribe_and_cleanup wavLen parsed whisperLoaded transcribe
        ollamaEnabled cleanup2).1.isOk = true) := by
  have hshape := transcribe_ok_cleaned_shape wavLen parsed whisperLoaded
    transcribe ollamaEnabled cleanup tr inv h
  have hOk : (transcribe_and_cleanup wavLen parsed whisperLoaded transcribe
      ollamaEnabled cleanup).1.isOk = true := by
    rw [h]
    rfl
  refine ⟨?_, ?_, ?_, fun c2 => by
    rw [← transcribe_isOk_independent wavLen parsed whisperLoaded transcribe
      ollamaEnabled cleanup c2]
    exact hOk⟩
  · intro hdis
    rcases hshape with hl | ⟨hen, -⟩
    · exact hl
    · rw [hdis] at hen
      cases hen
  · intro e he
    rcases hshape with hl | ⟨-, cl, hcl, -, -⟩
    · exact hl
    · rw [he] at hcl
      cases hcl
  · intro cl hcl hp htr
    rcases hshape with hl | ⟨-, cl0, hcl0, hcle, htok⟩
    · exact hl
    · rw [hcl] at hcl0
      injection hcl0 with hcl0
      rw [← hcl0] at htok
      exact absurd ⟨hp, htr⟩ htok

/-- Evaluation of the workflow on a concrete successful run with cleanup
enabled and a failing cleanup service: the raw text is kept and the
recorded cleanup invocation is the pair (raw text, detected language). -/
theorem transcribe_sample_run :
    transcribe_and_cleanup 1000 (.ok { spec := wavSpec16k, data := .floatData [1] }) true
        (fun _ => .ok { text := "hello there", language := "en" }) true
        (fun _ _ => .error "down")
      = (.ok { raw_text := "hello there", cleaned_text := "hello there", language := "en" },
         some ("hello there", some "en")) := by
  unfold transcribe_and_cleanup
  rw [if_neg (by decide)]
  rw [if_neg (by decide)]
  simp only [wav_to_samples, wavFileToSamples]
  rw [if_neg (by
    simp only [List.foldl_cons, List.foldl_nil, abs_one]
    rw [max_eq_right (by norm_num : (0 : ℚ) ≤ 1)]
    norm_num)]
  rw [if_neg (by decide), if_pos (by exact ⟨trivial, by decide⟩)]
  rfl

/-- C4 witness: the fallback policy instantiated on the concrete run with
cleanup enabled and a failing service. -/
theorem cleanup_fallback_policy_witness :
    transcribe_and_cleanup 1000 (.ok { spec := wavSpec16k, data := .floatData [1] }) true
        (fun _ => .ok { text := "hello there", language := "en" }) true
        (fun _ _ => .error "down")
      = (.ok { raw_text := "hello there", cleaned_text := "hello there", language := "en" },
         some ("hello there", some "en")) ∧
    (((true : Bool) = false →
      ({ raw_text := "hello there", cleaned_text := "hello there", language := "en" } : TranscribeResult).cleaned_text
        = ({ raw_text := "hello there", cleaned_text := "hello there", language := "en" } : TranscribeResult).raw_text) ∧
    (∀ e, (fun _ _ => (.error "down" : Except String String))
        ({ raw_text := "hello there", cleaned_text := "hello there", language := "en" } : TranscribeResult).raw_text
        (some ({ raw_text := "hello there", cleaned_text := "hello there", language := "en" } : TranscribeResult).language) = .error e →
      ({ raw_text := "hello there", cleaned_text := "hello there", language := "en" } : TranscribeResult).cleaned_text
        = ({ raw_text := "hello there", cleaned_text := "hello there", language := "en" } : TranscribeResult).raw_text) ∧
    (∀ cl, (fun _ _ => (.error "down" : Except String String))
        ({ raw_text := "hello there", cleaned_text := "hello there", language := "en" } : TranscribeResult).raw_text
        (some ({ raw_text := "hello there", cleaned_text := "hello there", language := "en" } : TranscribeResult).language) = .ok cl →
      rustContains cl "provide" = true → rustContains cl "transcript" = true →
      ({ raw_text := "hello there", cleaned_text := "hello there", language := "en" } : TranscribeResult).cleaned_text
        = ({ raw_text := "hello there", cleaned_text := "hello there", language := "en" } : TranscribeResult).raw_text) ∧
    (∀ cleanup2, (transcribe_and_cleanup 1000 (.ok { spec := wavSpec16k, data := .floatData [1] }) true
        (fun _ => .ok { text := "hello there", language := "en" }) true cleanup2).1.isOk = true)) :=
  ⟨transcribe_sample_run,
   cleanup_fallback_policy 1000 (.ok { spec := wavSpec16k, data := .floatData [1] }) true
     (fun _ => .ok { text := "hello there", language := "en" }) true
     (fun _ _ => .error "down") _ _ transcribe_sample_run⟩

/-! ## Claim C5: arguments of the cleanup invocation -/

/-- C5: on a concrete successful run with cleanup enabled, the workflow's
recorded cleanup invocation consists of exactly the raw text and the
detected language — the call at lib.rs:412 passes no mode argument (and
the application state holds no selected mode), contradicting both the
spec and the three-parameter signature of `OllamaClient::cleanup_text`. -/
theorem cleanup_invocation_lacks_mode :
    (transcribe_and_cleanup 1000 (.ok { spec := wavSpec16k, data := .floatData [1] }) true
        (fun _ => .ok { text := "hello there", language := "en" }) true
        (fun _ _ => .error "down")).2
      = some ("hello there", some "en") := by
  rw [transcribe_sample_run]
